import Mathlib

/-!
Shallow embedding of `certbot_dns_cloudns/_internal/authenticator.py`
(the Challenge Orchestrator of the spec).

Pure parts (credential validation, message construction) are Lean
functions.  The stateful orchestrator (`_get_client` memoization via
`functools.lru_cache`, the mutable `self.credentials` field) is modelled
by explicit state passing on an `AuthState` record.  The external alias
resolver (`resolve.py`, not part of the orchestrator) is an oracle
carried by a `DnsEnv` record, so that each call's resolution is a
function of the environment at the time of the call.  Provider API calls
are recorded as a trace of `ProviderCall` events, each tagged with the
client object that issued it, mirroring `client.add_txt_record(...)`.
-/

namespace Cloudns

/-- The external credentials configuration object, as the orchestrator
sees it (spec section 6): `conf key` is the value of `key` or absent,
`filename` models `credentials.confobj.filename`, and `mapper` models
`credentials.mapper` (the key-to-option-name mapping used in
diagnostics). -/
structure Credentials where
  conf : String → Option String
  filename : String
  mapper : String → String

/-- `certbot.errors.PluginError`, which the spec's error taxonomy calls
`ConfigurationError` (spec section 7: credential-mode cardinality
errors). -/
structure PluginError where
  msg : String
deriving DecidableEq

/-- The tuple `required_keys = ('auth-id', 'sub-auth-id', 'sub-auth-user')`
from `_validate_user_ids`. -/
def required_keys : List String := ["auth-id", "sub-auth-id", "sub-auth-user"]

/-- `user_count = sum(int(credentials.conf(key) is not None) for key in required_keys)`
from `_validate_user_ids`. -/
def user_count (credentials : Credentials) : Nat :=
  (required_keys.map fun key => if (credentials.conf key).isSome then 1 else 0).sum

/-- `Authenticator._validate_user_ids`: raises `PluginError` when the
number of identity keys present is not exactly 1, with the f-string
message of lines 59-67 of `authenticator.py`. -/
def _validate_user_ids (credentials : Credentials) : Except PluginError Unit :=
  if user_count credentials ≠ 1 then
    .error ⟨(if user_count credentials == 0 then "Missing" else "Unexpected")
      ++ " "
      ++ (if user_count credentials ≤ 2 then "property" else "properties")
      ++ " in credentials configuration file "
      ++ credentials.filename
      ++ ":\n * Expected exactly one of "
      ++ String.intercalate ", " (required_keys.map credentials.mapper)
      ++ "; found " ++ toString (user_count credentials) ++ "."⟩
  else
    .ok ()

/-- Whether the first character list is an initial segment of the
second (auxiliary to `containsSub`). -/
def startsWithList : List Char → List Char → Bool
  | [], _ => true
  | _ :: _, [] => false
  | p :: ps, c :: cs => p == c && startsWithList ps cs

/-- Whether `pat` occurs as a contiguous segment of the second list
(auxiliary to `containsSub`). -/
def occursIn (pat : List Char) : List Char → Bool
  | [] => startsWithList pat []
  | c :: cs => startsWithList pat (c :: cs) || occursIn pat cs

/-- Substring test used to state that a diagnostic message does or does
not mention a word. -/
def containsSub (pat s : String) : Bool := occursIn pat.toList s.toList

/-- The diagnostic message as described by the amended claim C2: the
word choice is "Missing property" for zero identity keys, "Unexpected
property" (singular) for exactly two, and "Unexpected properties" only
for all three; the three expected keys are enumerated through the
credentials mapper, and the file path and actual count are included. -/
def amendedMessage (credentials : Credentials) : String :=
  (if user_count credentials = 0 then "Missing property"
   else if user_count credentials = 2 then "Unexpected property"
   else "Unexpected properties")
  ++ " in credentials configuration file " ++ credentials.filename
  ++ ":\n * Expected exactly one of "
  ++ credentials.mapper "auth-id" ++ ", " ++ credentials.mapper "sub-auth-id"
  ++ ", " ++ credentials.mapper "sub-auth-user"
  ++ "; found " ++ toString (user_count credentials) ++ "."

/-- `ClouDNSClient(self.credentials)` as constructed by `_get_client`:
a handle bound to the credentials value passed at construction time
(`self.credentials` may still be `None`, as set by `__init__`). -/
structure ClouDNSClient where
  credentials : Option Credentials

/-- The `ResolutionError` of spec section 4.1, carrying the original
name and the underlying network or protocol error. -/
structure ResolutionError where
  name : String
  detail : String
deriving DecidableEq

/-- The DNS world at the moment of one call: `resolve_alias name nameserver`
is what the external resolver `resolve.py`'s `resolve_alias(validation_name,
nameserver=...)` returns for that call, either the resolved target name or a
`ResolutionError`.  Two different `DnsEnv` values model DNS data that changed
between calls. -/
structure DnsEnv where
  resolve_alias : String → String → Except ResolutionError String

/-- The mutable fields of one `Authenticator` instance: `credentials` is
`self.credentials` (`None` after `__init__`), `nameserver` is the value of
`self.conf('nameserver')`, and `clientCache` is the `functools.lru_cache`
slot of `_get_client` for this instance (`none` while no call has been
made). -/
structure AuthState where
  credentials : Option Credentials
  nameserver : String
  clientCache : Option ClouDNSClient

/-- `Authenticator.ttl = 60` (class attribute, line 24). -/
def ttl : Nat := 60

/-- `Authenticator._get_client`, decorated with
`functools.lru_cache(maxsize=None)`: on the first call for an
instance it evaluates `ClouDNSClient(self.credentials)` and stores the
result in the cache slot; on every later call it returns the cached
client without touching `self.credentials`.  Returns the client together
with the updated state. -/
def _get_client (s : AuthState) : ClouDNSClient × AuthState :=
  match s.clientCache with
  | some client => (client, s)
  | none =>
      let client : ClouDNSClient := ⟨s.credentials⟩
      (client, { s with clientCache := some client })

/-- `Authenticator._resolve_alias`: calls
`resolve_alias(validation_name, nameserver=self.conf('nameserver'))`
against the DNS world of the current call. -/
def _resolve_alias (env : DnsEnv) (s : AuthState) (validation_name : String) :
    Except ResolutionError String :=
  env.resolve_alias validation_name s.nameserver

/-- One provider API call, tagged with the client object that issued it
(`client.add_txt_record(...)` / `client.del_txt_record(...)`). -/
inductive ProviderCall where
  | add_txt_record (client : ClouDNSClient) (domain name value : String) (ttl : Nat)
  | del_txt_record (client : ClouDNSClient) (domain name value : String)

/-- `Authenticator._perform`: evaluates
`self._get_client().add_txt_record(_domain, self._resolve_alias(validation_name), validation, self.ttl)`.
Python evaluates the callee `self._get_client()` before the argument
`self._resolve_alias(...)`, so the client is obtained (and on first use
constructed and cached) before resolution is attempted; if resolution
raises, the error propagates and no provider call is emitted. -/
def _perform (env : DnsEnv) (s : AuthState)
    (_domain validation_name validation : String) :
    Except ResolutionError (List ProviderCall) × AuthState :=
  let (client, s1) := _get_client s
  match _resolve_alias env s1 validation_name with
  | .error e => (.error e, s1)
  | .ok resolved =>
      (.ok [ProviderCall.add_txt_record client _domain resolved validation ttl], s1)

/-- `Authenticator._cleanup`: evaluates
`self._get_client().del_txt_record(_domain, self._resolve_alias(validation_name), validation)`,
with the same evaluation order as `_perform`. -/
def _cleanup (env : DnsEnv) (s : AuthState)
    (_domain validation_name validation : String) :
    Except ResolutionError (List ProviderCall) × AuthState :=
  let (client, s1) := _get_client s
  match _resolve_alias env s1 validation_name with
  | .error e => (.error e, s1)
  | .ok resolved =>
      (.ok [ProviderCall.del_txt_record client _domain resolved validation], s1)

/-- The provider calls actually issued by one `_perform`/`_cleanup`
invocation: none when the call aborted with a `ResolutionError`. -/
def emittedCalls :
    Except ResolutionError (List ProviderCall) × AuthState → List ProviderCall
  | (.ok calls, _) => calls
  | (.error _, _) => []

/-- `Authenticator._setup_credentials` via
`self._configure_credentials('credentials', ..., self._validate_user_ids)`:
the loaded credentials object is validated by `_validate_user_ids` and, on
success, assigned to `self.credentials`. -/
def _setup_credentials (s : AuthState) (loaded : Credentials) :
    Except PluginError AuthState :=
  match _validate_user_ids loaded with
  | .error e => .error e
  | .ok _ => .ok { s with credentials := some loaded }

/-- A TXT record held by the provider, identified by the triple the
delete operation matches on (spec section 4.2 item 4). -/
structure TxtRecord where
  domain : String
  name : String
  value : String
deriving DecidableEq

/-- Outcome of the provider's delete operation: the record was removed,
or no matching record was found. -/
inductive DelOutcome where
  | deleted
  | notFound
deriving DecidableEq

/-- Modelled from the spec: the provider client's `del_txt_record`
(`client.py`, not present under `src/`).  Per spec sections 4.2 and 7, a
"record not found" response on delete is not escalated as fatal: the
operation removes the records matching `(domain, name, value)` and
reports `notFound` as an ordinary (non-raising) outcome when none
matched. -/
def del_txt_record (zone : List TxtRecord) (domain name value : String) :
    DelOutcome × List TxtRecord :=
  if zone.any (fun r => r.domain == domain && r.name == name && r.value == value) then
    (.deleted,
      zone.filter fun r => !(r.domain == domain && r.name == name && r.value == value))
  else
    (.notFound, zone)

/-- Modelled from the spec: the `cleanup` lifecycle hook as seen by the
provider-side zone (spec section 4.2 item 4) — the orchestrator's
`_cleanup` with the spec-modelled `del_txt_record` in place of the
opaque client call, so the effect of "record not found" is observable.
The client is obtained and the name re-resolved exactly as in
`_cleanup`. -/
def cleanupRun (env : DnsEnv) (s : AuthState) (zone : List TxtRecord)
    (_domain validation_name validation : String) :
    Except ResolutionError (DelOutcome × List TxtRecord) × AuthState :=
  let (_client, s1) := _get_client s
  match _resolve_alias env s1 validation_name with
  | .error e => (.error e, s1)
  | .ok resolved => (.ok (del_txt_record zone _domain resolved validation), s1)

/-- Errors visible at the public lifecycle entry points: the spec's
`ConfigurationError` and `ResolutionError` taxonomy (section 7). -/
inductive OrchError where
  | configurationError (msg : String)
  | resolutionError (e : ResolutionError)

/-- Modelled from the spec: the public `perform` entry point.  The host
framework dispatch (certbot's `dns_common` base class) and the client
constructor (`client.py`) are not under `src/`; per the spec's state
machine (section 4.2), calling `perform` in the `UNCONFIGURED` state
(credentials not yet loaded and validated, `self.credentials is None`)
is a programming error reported as `ConfigurationError`; in the `READY`
state it dispatches to `_perform`. -/
def performPublic (env : DnsEnv) (s : AuthState)
    (domain validation_name validation : String) :
    Except OrchError (List ProviderCall) × AuthState :=
  match s.credentials with
  | none => (.error (.configurationError "credentials not configured"), s)
  | some _ =>
      match _perform env s domain validation_name validation with
      | (.error e, s1) => (.error (.resolutionError e), s1)
      | (.ok calls, s1) => (.ok calls, s1)

/-- Modelled from the spec: the public `cleanup` entry point, with the
same `UNCONFIGURED`-state gate as `performPublic` (spec section 4.2
state machine), dispatching to `_cleanup` in the `READY` state. -/
def cleanupPublic (env : DnsEnv) (s : AuthState)
    (domain validation_name validation : String) :
    Except OrchError (List ProviderCall) × AuthState :=
  match s.credentials with
  | none => (.error (.configurationError "credentials not configured"), s)
  | some _ =>
      match _cleanup env s domain validation_name validation with
      | (.error e, s1) => (.error (.resolutionError e), s1)
      | (.ok calls, s1) => (.ok calls, s1)

/-! Concrete sample data used by witnesses and counterexamples. -/

/-- A credentials object with exactly one identity key (`auth-id`) and
the required `auth-password`. -/
def sampleCreds : Credentials :=
  { conf := fun key =>
      if key == "auth-id" then some "12345"
      else if key == "auth-password" then some "hunter2" else none
    filename := "/etc/letsencrypt/cloudns.ini"
    mapper := fun key => key }

/-- A credentials object with two identity keys present (`auth-id` and
`sub-auth-id`). -/
def twoIdCreds : Credentials :=
  { conf := fun key => if key == "auth-id" || key == "sub-auth-id" then some "x" else none
    filename := "cloudns.ini"
    mapper := fun key => key }

/-- A second valid credentials object (identity key `sub-auth-user`),
used to exercise credential re-configuration. -/
def altCreds : Credentials :=
  { conf := fun key =>
      if key == "sub-auth-user" then some "alice"
      else if key == "auth-password" then some "pw2" else none
    filename := "cloudns2.ini"
    mapper := fun key => key }

/-- A DNS world with no CNAME indirection: every name resolves to
itself. -/
def env0 : DnsEnv := ⟨fun name _ => Except.ok name⟩

/-- A DNS world in which every resolution fails (for example an
unreachable nameserver). -/
def envErr : DnsEnv := ⟨fun name _ => Except.error ⟨name, "SERVFAIL"⟩⟩

/-- A configured (`READY`) authenticator state with an empty client
cache. -/
def s0 : AuthState :=
  { credentials := some sampleCreds
    nameserver := "pns1.cloudns.net"
    clientCache := none }

/-- An `UNCONFIGURED` authenticator state, as left by `__init__`
(`self.credentials = None`). -/
def sUnconfig : AuthState :=
  { credentials := none
    nameserver := "pns1.cloudns.net"
    clientCache := none }

/-! Helper lemmas. -/

/-- At most three identity keys can be present. -/
lemma user_count_le_three (c : Credentials) : user_count c ≤ 3 := by
  unfold user_count required_keys
  simp only [List.map, List.sum_cons, List.sum_nil]
  split <;> split <;> split <;> omega

/-- `String.intercalate` over the three required keys, written out. -/
lemma intercalate_three (m : String → String) :
    String.intercalate ", " (required_keys.map m) =
      m "auth-id" ++ ", " ++ m "sub-auth-id" ++ ", " ++ m "sub-auth-user" := rfl

/-- String concatenation is associative. -/
lemma strAppendAssoc (a b c : String) : a ++ b ++ c = a ++ (b ++ c) := by
  apply String.ext
  simp [String.data_append]

/-- Merging three leading string chunks of a right-associated
concatenation. -/
lemma mergeHead (a b c d x : String) (h : a ++ b ++ c = d) :
    a ++ (b ++ (c ++ x)) = d ++ x := by
  rw [← strAppendAssoc, ← strAppendAssoc, h]

/-- `_get_client` leaves every field except the cache slot unchanged. -/
lemma get_client_nameserver (s : AuthState) :
    ((_get_client s).2).nameserver = s.nameserver := by
  cases h : s.clientCache <;> simp [_get_client, h]

/-- After `_get_client`, the cache slot holds the returned client. -/
lemma get_client_cache (s : AuthState) :
    ((_get_client s).2).clientCache = some (_get_client s).1 := by
  cases h : s.clientCache <;> simp [_get_client, h]

/-- On an empty cache, `_get_client` constructs
`ClouDNSClient(self.credentials)`. -/
lemma get_client_fresh (s : AuthState) (h : s.clientCache = none) :
    (_get_client s).1 = ClouDNSClient.mk s.credentials := by
  simp [_get_client, h]

/-- `_perform` returns the state produced by its `_get_client` call. -/
lemma perform_state (env : DnsEnv) (s : AuthState) (d v tok : String) :
    (_perform env s d v tok).2 = (_get_client s).2 := by
  unfold _perform
  cases h : _resolve_alias env (_get_client s).2 v <;> simp [h]

/-- `_cleanup` returns the state produced by its `_get_client` call. -/
lemma cleanup_state (env : DnsEnv) (s : AuthState) (d v tok : String) :
    (_cleanup env s d v tok).2 = (_get_client s).2 := by
  unfold _cleanup
  cases h : _resolve_alias env (_get_client s).2 v <;> simp [h]

/-! The claims. -/

/-- Claim C1: `_validate_user_ids` raises its `PluginError` (the spec's
`ConfigurationError`) if and only if the number of the three identity
keys `auth-id`, `sub-auth-id`, `sub-auth-user` present is not exactly 1;
in particular, with exactly one of the three present it returns without
error. -/
theorem validate_identity_mode_iff (c : Credentials) :
    ((∃ e, _validate_user_ids c = Except.error e) ↔ user_count c ≠ 1) ∧
    (user_count c = 1 → _validate_user_ids c = Except.ok ()) := by
  unfold _validate_user_ids
  by_cases h : user_count c = 1
  · simp [h]
  · simp [h]

/-- Claim C1 witness: `sampleCreds` has exactly one identity key and
passes validation. -/
theorem validate_identity_mode_iff_witness :
    user_count sampleCreds = 1 ∧ _validate_user_ids sampleCreds = Except.ok () :=
  ⟨by decide, (validate_identity_mode_iff sampleCreds).2 (by decide)⟩

/-- Claim C2 counterexample: with exactly two of the three identity keys
present (more than one found), the error message reads "Unexpected
property" (singular) — it does not contain the word "properties" the
claim requires for every count above one. -/
theorem validate_plural_counterexample :
    1 < user_count twoIdCreds ∧
    _validate_user_ids twoIdCreds = Except.error
      ⟨"Unexpected property in credentials configuration file cloudns.ini:\n * Expected exactly one of auth-id, sub-auth-id, sub-auth-user; found 2."⟩ ∧
    containsSub "properties"
      "Unexpected property in credentials configuration file cloudns.ini:\n * Expected exactly one of auth-id, sub-auth-id, sub-auth-user; found 2." = false :=
  ⟨by decide, rfl, by decide⟩

/-- Claim C2 (amended): for every credentials object failing the
identity-mode check, the error message says "Missing property" when zero
identity keys are found, "Unexpected property" (singular) when exactly
two are found, and "Unexpected properties" only when all three are
found; it enumerates all three expected keys (through the credentials
mapper), and includes the credentials file path and the actual count. -/
theorem validate_message_amended (c : Credentials) (h : user_count c ≠ 1) :
    _validate_user_ids c = Except.error ⟨amendedMessage c⟩ := by
  have h3 : user_count c ≤ 3 := user_count_le_three c
  unfold _validate_user_ids amendedMessage
  rw [intercalate_three]
  generalize user_count c = n at h h3 ⊢
  interval_cases n
  · simp only [strAppendAssoc]
    norm_num
    rw [mergeHead _ _ _ _ _ (by decide : ("Missing" : String) ++ " " ++ "property" = "Missing property")]
  · omega
  · simp only [strAppendAssoc]
    norm_num
    rw [mergeHead _ _ _ _ _ (by decide : ("Unexpected" : String) ++ " " ++ "property" = "Unexpected property")]
  · simp only [strAppendAssoc]
    norm_num
    rw [mergeHead _ _ _ _ _ (by decide : ("Unexpected" : String) ++ " " ++ "properties" = "Unexpected properties")]

/-- Claim C2 (amended) witness: the two-key credentials object fails
validation with exactly the amended message. -/
theorem validate_message_amended_witness :
    user_count twoIdCreds ≠ 1 ∧
    _validate_user_ids twoIdCreds = Except.error ⟨amendedMessage twoIdCreds⟩ :=
  ⟨by decide, validate_message_amended twoIdCreds (by decide)⟩

/-- Claim C3: a `perform` call whose alias resolution returns `resolved`
makes exactly one provider call, `add_txt_record(domain, resolved,
validation, 60)`: the domain and token pass through unchanged, only the
name is replaced by the resolved alias, and the TTL is the fixed 60
seconds of `Authenticator.ttl`. -/
theorem perform_single_add_call (env : DnsEnv) (s : AuthState)
    (domain validation_name validation resolved : String)
    (hres : env.resolve_alias validation_name s.nameserver = Except.ok resolved) :
    (_perform env s domain validation_name validation).1 =
      Except.ok [ProviderCall.add_txt_record (_get_client s).1 domain resolved validation 60] := by
  cases hc : s.clientCache <;>
    simp [_perform, _resolve_alias, _get_client, ttl, hc, hres]

/-- Claim C3 witness: with no CNAME present, `perform` on
`_acme-challenge.example.com` issues exactly
`add_txt_record("example.com", "_acme-challenge.example.com", "tok123", 60)`. -/
theorem perform_single_add_call_witness :
    (_perform env0 s0 "example.com" "_acme-challenge.example.com" "tok123").1 =
      Except.ok [ProviderCall.add_txt_record (_get_client s0).1 "example.com"
        "_acme-challenge.example.com" "tok123" 60] :=
  perform_single_add_call env0 s0 "example.com" "_acme-challenge.example.com" "tok123"
    "_acme-challenge.example.com" rfl

/-- Claim C4: a `cleanup` following a `perform` re-resolves the
validation name against the DNS world of the cleanup call (`env2`),
whatever the perform-time world (`env1`) did: the delete targets
`env2`'s resolution, so no resolved name is cached or reused between the
two calls. -/
theorem cleanup_re_resolves (env1 env2 : DnsEnv) (s : AuthState)
    (domain validation_name validation r2 : String)
    (h2 : env2.resolve_alias validation_name s.nameserver = Except.ok r2) :
    (_cleanup env2 (_perform env1 s domain validation_name validation).2
        domain validation_name validation).1 =
      Except.ok [ProviderCall.del_txt_record
        (_get_client (_perform env1 s domain validation_name validation).2).1
        domain r2 validation] := by
  rw [perform_state]
  cases hc : s.clientCache <;>
    simp [_cleanup, _resolve_alias, _get_client, hc, h2]

/-- Claim C4 witness: even after a `perform` whose resolution failed,
the subsequent `cleanup` resolves afresh in the current DNS world and
deletes at that name. -/
theorem cleanup_re_resolves_witness :
    (_cleanup env0 (_perform envErr s0 "example.com" "_acme-challenge.example.com" "tok123").2
        "example.com" "_acme-challenge.example.com" "tok123").1 =
      Except.ok [ProviderCall.del_txt_record
        (_get_client (_perform envErr s0 "example.com" "_acme-challenge.example.com" "tok123").2).1
        "example.com" "_acme-challenge.example.com" "tok123"] :=
  cleanup_re_resolves envErr env0 s0 "example.com" "_acme-challenge.example.com" "tok123"
    "_acme-challenge.example.com" rfl

/-- Claim C5: `_get_client` is memoized per instance: a repeated call
returns the identical cached client and leaves the state unchanged. -/
theorem get_client_memoized (s : AuthState) :
    (_get_client (_get_client s).2).1 = (_get_client s).1 ∧
    (_get_client (_get_client s).2).2 = (_get_client s).2 := by
  cases hc : s.clientCache <;> simp [_get_client, hc]

/-- Claim C6: when alias resolution fails, the `ResolutionError`
propagates out of both `_perform` and `_cleanup` unchanged (no retry, no
suppression) and no provider call is emitted. -/
theorem resolution_error_propagates (env : DnsEnv) (s : AuthState)
    (domain validation_name validation : String) (e : ResolutionError)
    (h : env.resolve_alias validation_name s.nameserver = Except.error e) :
    (_perform env s domain validation_name validation).1 = Except.error e ∧
    emittedCalls (_perform env s domain validation_name validation) = [] ∧
    (_cleanup env s domain validation_name validation).1 = Except.error e ∧
    emittedCalls (_cleanup env s domain validation_name validation) = [] := by
  cases hc : s.clientCache <;>
    simp [_perform, _cleanup, _resolve_alias, _get_client, emittedCalls, hc, h]

/-- Claim C6 witness: with an unreachable nameserver both lifecycle
calls abort with the resolver's error and emit no provider call. -/
theorem resolution_error_propagates_witness :
    (_perform envErr s0 "example.com" "_acme-challenge.example.com" "tok123").1 =
      Except.error ⟨"_acme-challenge.example.com", "SERVFAIL"⟩ ∧
    emittedCalls (_perform envErr s0 "example.com" "_acme-challenge.example.com" "tok123") = [] ∧
    (_cleanup envErr s0 "example.com" "_acme-challenge.example.com" "tok123").1 =
      Except.error ⟨"_acme-challenge.example.com", "SERVFAIL"⟩ ∧
    emittedCalls (_cleanup envErr s0 "example.com" "_acme-challenge.example.com" "tok123") = [] :=
  resolution_error_propagates envErr s0 "example.com" "_acme-challenge.example.com" "tok123"
    ⟨"_acme-challenge.example.com", "SERVFAIL"⟩ rfl

/-- Claim C7: in the `UNCONFIGURED` state (credentials not yet loaded
and validated), both public lifecycle entry points fail with a
`ConfigurationError` rather than proceeding. -/
theorem unconfigured_rejected (env : DnsEnv) (s : AuthState)
    (domain validation_name validation : String) (h : s.credentials = none) :
    (∃ msg, (performPublic env s domain validation_name validation).1 =
        Except.error (OrchError.configurationError msg)) ∧
    (∃ msg, (cleanupPublic env s domain validation_name validation).1 =
        Except.error (OrchError.configurationError msg)) := by
  constructor
  · exact ⟨"credentials not configured", by simp [performPublic, h]⟩
  · exact ⟨"credentials not configured", by simp [cleanupPublic, h]⟩

/-- Claim C7 witness: the freshly initialized state rejects both calls. -/
theorem unconfigured_rejected_witness :
    (∃ msg, (performPublic env0 sUnconfig "example.com" "_acme-challenge.example.com" "tok123").1 =
        Except.error (OrchError.configurationError msg)) ∧
    (∃ msg, (cleanupPublic env0 sUnconfig "example.com" "_acme-challenge.example.com" "tok123").1 =
        Except.error (OrchError.configurationError msg)) :=
  unconfigured_rejected env0 sUnconfig "example.com" "_acme-challenge.example.com" "tok123" rfl

/-- After one delete, a second delete with the same key finds no
matching record and reports `notFound`, leaving the zone unchanged. -/
lemma del_txt_record_idem (zone : List TxtRecord) (d nm v : String) :
    del_txt_record (del_txt_record zone d nm v).2 d nm v =
      (DelOutcome.notFound, (del_txt_record zone d nm v).2) := by
  by_cases h : (zone.any fun r => r.domain == d && r.name == nm && r.value == v) = true
  · have hz2 : (del_txt_record zone d nm v).2 =
        zone.filter fun r => !(r.domain == d && r.name == nm && r.value == v) := by
      unfold del_txt_record
      rw [if_pos h]
    have hfalse : ((zone.filter fun r => !(r.domain == d && r.name == nm && r.value == v)).any
        fun r => r.domain == d && r.name == nm && r.value == v) = false := by
      rw [List.any_eq_false]
      intro r hr
      obtain ⟨-, hpr⟩ := List.mem_filter.mp hr
      rw [Bool.not_eq_true'] at hpr
      simp [hpr]
    rw [hz2]
    unfold del_txt_record
    rw [if_neg (by rw [hfalse]; exact Bool.false_ne_true)]
  · have hz2 : (del_txt_record zone d nm v).2 = zone := by
      unfold del_txt_record
      rw [if_neg h]
    rw [hz2]
    unfold del_txt_record
    rw [if_neg h]

/-- Claim C8: `cleanup` is safe when the record was already removed or
never created: whenever resolution succeeds the run returns without a
fatal error for every provider zone, and a second identical `cleanup`
(which finds no record) reports the non-fatal `notFound` outcome. -/
theorem cleanup_not_found_nonfatal (env : DnsEnv) (s : AuthState) (zone : List TxtRecord)
    (domain validation_name validation resolved : String)
    (hres : env.resolve_alias validation_name s.nameserver = Except.ok resolved) :
    ∃ out1 zone1,
      cleanupRun env s zone domain validation_name validation =
        (Except.ok (out1, zone1), (_get_client s).2) ∧
      (cleanupRun env (_get_client s).2 zone1 domain validation_name validation).1 =
        Except.ok (DelOutcome.notFound, zone1) := by
  refine ⟨(del_txt_record zone domain resolved validation).1,
          (del_txt_record zone domain resolved validation).2, ?_, ?_⟩
  · cases hc : s.clientCache <;>
      simp [cleanupRun, _resolve_alias, _get_client, hc, hres]
  · cases hc : s.clientCache <;>
      simp [cleanupRun, _resolve_alias, _get_client, hc, hres, del_txt_record_idem]

/-- Claim C8 witness: on an empty zone (record never created), `cleanup`
returns the non-fatal `notFound`, and so does the repeated call. -/
theorem cleanup_not_found_nonfatal_witness :
    ∃ out1 zone1,
      cleanupRun env0 s0 [] "example.com" "_acme-challenge.example.com" "tok123" =
        (Except.ok (out1, zone1), (_get_client s0).2) ∧
      (cleanupRun env0 (_get_client s0).2 zone1 "example.com"
          "_acme-challenge.example.com" "tok123").1 =
        Except.ok (DelOutcome.notFound, zone1) :=
  cleanup_not_found_nonfatal env0 s0 [] "example.com" "_acme-challenge.example.com"
    "tok123" "_acme-challenge.example.com" rfl

/-- Claim C9: in both `_perform` and `_cleanup` the client is obtained —
and on first use constructed — before alias resolution is attempted: on
every call whose resolution fails, the post-call state has the client
cached, and a later `_get_client` returns that same client. -/
theorem client_cached_before_resolution (env : DnsEnv) (s : AuthState)
    (domain validation_name validation : String) (e : ResolutionError)
    (_h : env.resolve_alias validation_name s.nameserver = Except.error e) :
    ((_perform env s domain validation_name validation).2).clientCache =
      some (_get_client s).1 ∧
    (_get_client (_perform env s domain validation_name validation).2).1 =
      (_get_client s).1 ∧
    ((_cleanup env s domain validation_name validation).2).clientCache =
      some (_get_client s).1 := by
  rw [perform_state, cleanup_state]
  cases hc : s.clientCache <;> simp [_get_client, hc]

/-- Claim C9 witness: a failing resolution still leaves the client
constructed and cached. -/
theorem client_cached_before_resolution_witness :
    ((_perform envErr s0 "example.com" "_acme-challenge.example.com" "tok123").2).clientCache =
      some (_get_client s0).1 ∧
    (_get_client (_perform envErr s0 "example.com" "_acme-challenge.example.com" "tok123").2).1 =
      (_get_client s0).1 ∧
    ((_cleanup envErr s0 "example.com" "_acme-challenge.example.com" "tok123").2).clientCache =
      some (_get_client s0).1 :=
  client_cached_before_resolution envErr s0 "example.com" "_acme-challenge.example.com"
    "tok123" ⟨"_acme-challenge.example.com", "SERVFAIL"⟩ rfl

/-- Claim C10: the cached client is built from the value of
`self.credentials` at the time of the first `_get_client` call; a later
re-run of `_setup_credentials` replaces `self.credentials` but the
client any subsequent call uses is still the one built from the original
credentials. -/
theorem client_ignores_credential_changes (s : AuthState) (c2 : Credentials)
    (hcache : s.clientCache = none) (hc2 : _validate_user_ids c2 = Except.ok ()) :
    (_get_client s).1 = ClouDNSClient.mk s.credentials ∧
    ∃ s2, _setup_credentials (_get_client s).2 c2 = Except.ok s2 ∧
      s2.credentials = some c2 ∧
      (_get_client s2).1 = ClouDNSClient.mk s.credentials := by
  refine ⟨get_client_fresh s hcache, { (_get_client s).2 with credentials := some c2 },
    ?_, rfl, ?_⟩
  · simp [_setup_credentials, hc2]
  · simp [_get_client, hcache]

/-- Claim C10 witness: after the client is first built from
`sampleCreds` and the credentials are re-configured to `altCreds`, the
client returned is still the one built from `sampleCreds`. -/
theorem client_ignores_credential_changes_witness :
    (_get_client s0).1 = ClouDNSClient.mk s0.credentials ∧
    ∃ s2, _setup_credentials (_get_client s0).2 altCreds = Except.ok s2 ∧
      s2.credentials = some altCreds ∧
      (_get_client s2).1 = ClouDNSClient.mk s0.credentials :=
  client_ignores_credential_changes s0 altCreds rfl rfl

end Cloudns
